import Mathlib

/-
  Verification of the AP_Mission mission-execution engine
  (libraries/AP_Mission/AP_Mission.h and its companion implementation).

  The repository snapshot provides the class header AP_Mission.h; the
  bodies of the out-of-line member functions live in AP_Mission.cpp,
  which is not part of the snapshot.  Definitions below that embed an
  out-of-line body are therefore marked "Modelled from the spec:" and
  follow the design document's description of that body, while every
  constant, inline function and declaration taken from AP_Mission.h is
  embedded directly from that header.

  Machine integers are embedded as Nat / Int with explicit bounds where
  they matter; the only floating-point computation reasoned about
  (get_loiter_turns) uses values on which every IEEE operation involved
  is exact, so it is embedded over the rationals.
-/

-- ------------------------------------------------------------------
-- Constants from AP_Mission.h (lines 26-50) and the MAVLink command ids
-- used by the engine.
-- ------------------------------------------------------------------

/-- AP_Mission.h line 26: version number stored in the first bytes of eeprom. -/
def AP_MISSION_EEPROM_VERSION : Nat := 0x65AE

/-- AP_Mission.h line 33: jump-table capacity (small-memory boards value). -/
def AP_MISSION_MAX_NUM_DO_JUMP_COMMANDS : Nat := 15

/-- AP_Mission.h line 37: do-jump repeat count meaning endless repeat. -/
def AP_MISSION_JUMP_REPEAT_FOREVER : Int := -1

/-- AP_Mission.h line 39: command id 0 means invalid or missing command. -/
def AP_MISSION_CMD_ID_NONE : Nat := 0

/-- AP_Mission.h line 40: command index 65535 means invalid or missing command. -/
def AP_MISSION_CMD_INDEX_NONE : Nat := 65535

/-- AP_Mission.h line 41: maximum number of times a jump can be executed;
used when jump tracking fails (i.e. when too many jumps in mission). -/
def AP_MISSION_JUMP_TIMES_MAX : Int := 32767

/-- AP_Mission.h line 43: command 0 is reserved to hold the home position. -/
def AP_MISSION_FIRST_REAL_COMMAND : Nat := 1

/-- AP_Mission.h line 49: capacity of the WP resume-history ring. -/
def AP_MISSION_MAX_WP_HISTORY : Nat := 7

/-- AP_Mission.h line 50: slot of the last WP passed inside the history. -/
def LAST_WP_PASSED : Nat := AP_MISSION_MAX_WP_HISTORY - 2

/-- MAVLink command id MAV_CMD_NAV_WAYPOINT. -/
def MAV_CMD_NAV_WAYPOINT : Nat := 16

/-- MAVLink command id MAV_CMD_NAV_LAST, the upper bound of the basic
navigation-command id range. -/
def MAV_CMD_NAV_LAST : Nat := 95

/-- MAVLink command id MAV_CMD_CONDITION_DELAY. -/
def MAV_CMD_CONDITION_DELAY : Nat := 112

/-- MAVLink command id MAV_CMD_DO_JUMP. -/
def MAV_CMD_DO_JUMP : Nat := 177

/-- MAVLink command id MAV_CMD_DO_SET_SERVO. -/
def MAV_CMD_DO_SET_SERVO : Nat := 183

/-- MAVLink command id MAV_CMD_JUMP_TAG. -/
def MAV_CMD_JUMP_TAG : Nat := 600

-- ------------------------------------------------------------------
-- Data model (AP_Mission.h lines 66-70, 305-438, 792-913).
-- ------------------------------------------------------------------

/-- AP_Mission.h lines 67-70: jump command structure, the active union
member of `content` when `id = MAV_CMD_DO_JUMP`.  `target` is a uint16
command index, `num_times` an int16 where -1 = repeat forever. -/
structure Jump_Command where
  target : Nat
  num_times : Int
deriving DecidableEq

/-- AP_Mission.h lines 409-417: a mission command.  The ~15-byte content
union is embedded by its `jump` member, the only member the advancement
logic examined here reads; `p1` additionally carries the tag value of a
JUMP_TAG command and the loiter turn count, and `type_specific_bits`
carries the extra location flag bits. -/
structure MissionCommand where
  index : Nat
  id : Nat
  p1 : Nat
  jump : Jump_Command
  type_specific_bits : Nat
deriving DecidableEq

/-- The stored command list: position i in the list is command index i
(index 0 is the reserved home slot). `num_commands` is its length. -/
structure Mission where
  cmds : List MissionCommand
deriving DecidableEq

/-- Modelled from the spec: `read_cmd_from_storage` (body in
AP_Mission.cpp, not in the snapshot) reads the fixed-size record at the
given index; an index beyond the list bound is NotFound (§4.1). -/
def read_cmd_from_storage (m : Mission) (index : Nat) : Option MissionCommand :=
  m.cmds[index]?

/-- AP_Mission.h lines 910-913: one entry of the fixed-capacity jump
tracking table; `index` is the storage index of a do-jump command,
`AP_MISSION_CMD_INDEX_NONE` marks an unused slot. -/
structure jump_tracking_struct where
  index : Nat
  num_times_run : Int
deriving DecidableEq

/-- AP_Mission.h lines 479-483: the mission run state. -/
inductive mission_state where
  | MISSION_STOPPED
  | MISSION_RUNNING
  | MISSION_COMPLETE
deriving DecidableEq

/-- The engine state the embedded operations touch: the current
navigation command `_nav_cmd`, the `_jump_tracking` table and the run
state (AP_Mission.h lines 797-805, 901, 910-913). -/
structure MissionState where
  nav_cmd : MissionCommand
  jump_tracking : List jump_tracking_struct
  flags_state : mission_state
deriving DecidableEq

/-- AP_Mission.h lines 446-467: the constructor clears `_nav_cmd.index`
to AP_MISSION_CMD_INDEX_NONE; the initial run state is MISSION_STOPPED. -/
def null_mission_command : MissionCommand :=
  { index := AP_MISSION_CMD_INDEX_NONE, id := AP_MISSION_CMD_ID_NONE, p1 := 0,
    jump := { target := 0, num_times := 0 }, type_specific_bits := 0 }

/-- Modelled from the spec: `init_jump_tracking` (body in
AP_Mission.cpp, not in the snapshot) marks every slot of the
fixed-capacity table unused (§4.2 reset_all). -/
def init_jump_tracking : List jump_tracking_struct :=
  List.replicate AP_MISSION_MAX_NUM_DO_JUMP_COMMANDS
    { index := AP_MISSION_CMD_INDEX_NONE, num_times_run := 0 }

/-- The engine state as the AP_Mission constructor leaves it
(AP_Mission.h lines 446-467, 480). -/
def constructor_mission_state : MissionState :=
  { nav_cmd := null_mission_command, jump_tracking := init_jump_tracking,
    flags_state := mission_state.MISSION_STOPPED }

-- ------------------------------------------------------------------
-- C9: get_current_nav_index (AP_Mission.h lines 566-569).
-- ------------------------------------------------------------------

/-- AP_Mission.h lines 566-569:
`return _nav_cmd.index==AP_MISSION_CMD_INDEX_NONE?0:_nav_cmd.index;`. -/
def get_current_nav_index (s : MissionState) : Nat :=
  if s.nav_cmd.index = AP_MISSION_CMD_INDEX_NONE then 0 else s.nav_cmd.index

-- ------------------------------------------------------------------
-- C10: get_loiter_turns (AP_Mission.h lines 430-437).
-- LOWBYTE(p1) is the uint8 cast of p1; every IEEE float operation the
-- source performs on these values (uint8 to float conversion and an
-- exact multiplication by 2^-8) is exact, so the function is embedded
-- over the rationals.
-- ------------------------------------------------------------------

/-- AP_Common LOWBYTE macro: the low byte of a value. -/
def LOWBYTE (i : Nat) : Nat := i % 256

/-- AP_Mission.h lines 430-437: number of turns for a LOITER_TURNS
command; bit 1 of `type_specific_bits` selects the fractional
(1/256-scaled) storage of `p1`'s low byte. -/
def get_loiter_turns (cmd : MissionCommand) : Rat :=
  let turns : Rat := (LOWBYTE cmd.p1 : Rat)
  if cmd.type_specific_bits &&& (1 <<< 1) ≠ 0 then turns * (1 / 256) else turns

-- ------------------------------------------------------------------
-- C8: Mission_Command equality (AP_Mission.h lines 422-424).
-- The comparison relies on all bytes of the structure, so the structure
-- is embedded for this claim by its raw byte image (including padding
-- and inactive union member bytes) and memcmp by byte-wise comparison.
-- ------------------------------------------------------------------

/-- The byte size of the Mission_Command structure.  The exact value is
immaterial to the byte-equality property; what matters is that both
operands have this fixed common length. -/
def MISSION_COMMAND_SIZEOF : Nat := 22

/-- C memcmp over byte lists: 0 when equal, otherwise the sign of the
first differing byte pair. -/
def memcmp_bytes : List Nat → List Nat → Int
  | [], [] => 0
  | [], _ :: _ => -1
  | _ :: _, [] => 1
  | a :: as, b :: bs =>
    if a < b then -1 else if b < a then 1 else memcmp_bytes as bs

/-- The raw byte image of a Mission_Command: every byte of the structure,
padding and inactive union members included. -/
def Mission_Command_bytes : Type :=
  { l : List Nat // l.length = MISSION_COMMAND_SIZEOF }

/-- AP_Mission.h line 423:
`bool operator ==(const Mission_Command &b) const { return (memcmp(this, &b, sizeof(Mission_Command)) == 0); }`. -/
def mission_command_eq (a b : Mission_Command_bytes) : Bool :=
  memcmp_bytes a.val b.val == 0

/-- AP_Mission.h line 424:
`bool operator !=(const Mission_Command &b) const { return !operator==(b); }`. -/
def mission_command_ne (a b : Mission_Command_bytes) : Bool :=
  ! mission_command_eq a b

-- ------------------------------------------------------------------
-- C4: check_eeprom_version / init (declarations AP_Mission.h lines
-- 489-490, 857-859): storage leads with a 2-byte version word; a
-- mismatch clears the command list.
-- ------------------------------------------------------------------

/-- StorageManager read_uint16: little-endian 2-byte read at an offset
of the byte-addressable storage region (absent bytes read as 0). -/
def storage_read_uint16 (storage : List Nat) (offset : Nat) : Nat :=
  storage.getD offset 0 + 256 * storage.getD (offset + 1) 0

/-- The engine configuration `init` produces: the persisted command
count and the run state. -/
structure MissionEngineConfig where
  cmd_total : Nat
  flags_state : mission_state
deriving DecidableEq

/-- Modelled from the spec: `check_eeprom_version` (body in
AP_Mission.cpp, not in the snapshot) compares the leading 2-byte version
word of the storage region against AP_MISSION_EEPROM_VERSION and clears
the command list on mismatch (AP_Mission.h lines 857-859, spec §6). -/
def check_eeprom_version (storage : List Nat) (stored_cmd_total : Nat) : Nat :=
  if storage_read_uint16 storage 0 = AP_MISSION_EEPROM_VERSION then
    stored_cmd_total
  else 0

/-- Modelled from the spec: `init` (body in AP_Mission.cpp, not in the
snapshot; declared `void init();` at AP_Mission.h line 490, so it has no
failure channel) validates the version marker, clearing the list on
mismatch, and leaves the mission stopped (§3 lifecycle, §8 version
invalidation). -/
def mission_lib_init (storage : List Nat) (stored_cmd_total : Nat) : MissionEngineConfig :=
  { cmd_total := check_eeprom_version storage stored_cmd_total,
    flags_state := mission_state.MISSION_STOPPED }

/-- AP_Mission.h lines 500-503: `num_commands` returns `_cmd_total`. -/
def num_commands (e : MissionEngineConfig) : Nat := e.cmd_total

-- ------------------------------------------------------------------
-- C7: the WP history ring (AP_Mission.h lines 49-50, 807-808).
-- ------------------------------------------------------------------

/-- Modelled from the spec: the push into `_wp_index_history` (performed
in AP_Mission.cpp's advance_current_nav_cmd, not in the snapshot) is the
O(1) ring update of §4.5: the oldest entry is overwritten first (the
fixed array is shifted down by one) and the newly visited navigation
index is written at the last position. -/
def wp_history_push (h : List Nat) (v : Nat) : List Nat :=
  h.drop 1 ++ [v]

/-- Pushing a sequence of visited navigation-command indices, oldest
first, into the history ring. -/
def wp_history_push_many (h : List Nat) (vs : List Nat) : List Nat :=
  vs.foldl wp_history_push h

/-- The history ring after reset_wp_history: every slot holds
AP_MISSION_CMD_INDEX_NONE. -/
def initial_wp_history : List Nat :=
  List.replicate AP_MISSION_MAX_WP_HISTORY AP_MISSION_CMD_INDEX_NONE

-- ------------------------------------------------------------------
-- C6: get_index_of_jump_tag (declaration and doc comment AP_Mission.h
-- lines 769-771: "find the first JUMP_TAG with this tag and return its
-- index.  Returns 0 if no appropriate JUMP_TAG match can be found.").
-- ------------------------------------------------------------------

/-- Modelled from the spec: the scan loop of `get_index_of_jump_tag`
(body in AP_Mission.cpp, not in the snapshot) walks the stored list
forward from position i looking for the first JUMP_TAG command whose tag
value (held in p1) matches; per the header's doc comment it returns 0
when no match is found.  The loop runs while the position is inside the
list; the descending counter makes that bound structural and is started
at the list length, which the loop can never exhaust early. -/
def jump_tag_scan (m : Mission) (tag : Nat) : Nat → Nat → Nat
  | 0, _ => 0
  | fuel + 1, i =>
    match m.cmds[i]? with
    | none => 0
    | some c =>
      if c.id = MAV_CMD_JUMP_TAG ∧ c.p1 = tag then i
      else jump_tag_scan m tag fuel (i + 1)

/-- Modelled from the spec: `get_index_of_jump_tag` scans the real
commands (from AP_MISSION_FIRST_REAL_COMMAND) forward. -/
def get_index_of_jump_tag (m : Mission) (tag : Nat) : Nat :=
  jump_tag_scan m tag m.cmds.length AP_MISSION_FIRST_REAL_COMMAND

/-- Whether the command at list position i is a JUMP_TAG carrying the
given tag value. -/
def tag_match (m : Mission) (tag i : Nat) : Bool :=
  match m.cmds[i]? with
  | some c => c.id == MAV_CMD_JUMP_TAG && c.p1 == tag
  | none => false

-- ------------------------------------------------------------------
-- C3: wire conversion (declarations AP_Mission.h lines 648-654).
-- The conversion bodies live in AP_Mission.cpp; the embedding below is
-- modelled from spec §4.4: a command-id-driven table assigning each wire
-- parameter to a union field, kept symmetric between the two
-- directions, over a representative subset of the supported id set.
-- The wire parameters of the modelled ids carry integral values, so
-- they are embedded as exact integers.
-- ------------------------------------------------------------------

/-- The standardized result codes of the external protocol layer
(spec §6: accepted / invalid-sequence / unsupported / invalid-param /
error). -/
inductive MAV_MISSION_RESULT where
  | MAV_MISSION_ACCEPTED
  | MAV_MISSION_ERROR
  | MAV_MISSION_UNSUPPORTED
  | MAV_MISSION_INVALID_SEQUENCE
  | MAV_MISSION_INVALID_PARAM1
  | MAV_MISSION_INVALID_PARAM2
deriving DecidableEq

/-- The external mission-item wire representation: a command id, generic
numeric parameters, an integer-scaled location (lat/lon ×1e7 in x/y,
altitude in z) and a frame tag (spec §4.4, §6). -/
structure mavlink_mission_item_int_t where
  command : Nat
  param1 : Int
  param2 : Int
  param3 : Int
  param4 : Int
  x : Int
  y : Int
  z : Int
  frame : Nat
deriving DecidableEq

/-- The all-zero wire item the outbound conversion starts from. -/
def zero_mission_item_int : mavlink_mission_item_int_t :=
  { command := 0, param1 := 0, param2 := 0, param3 := 0, param4 := 0,
    x := 0, y := 0, z := 0, frame := 0 }

/-- The content union of a codec-level command: the active member is
selected by the command id (spec §3). -/
inductive CodecContent where
  | jump_content (target : Nat) (num_times : Int)
  | delay_content (seconds : Int)
  | servo_content (channel : Nat) (pwm : Nat)
  | location_content (lat : Int) (lng : Int) (alt : Int) (frame : Nat)
  | empty_content
deriving DecidableEq

/-- A codec-level mission command: id, the generic p1 parameter and the
content union (AP_Mission.h lines 409-417 restricted to the fields the
modelled ids populate). -/
structure CodecCommand where
  id : Nat
  p1 : Nat
  content : CodecContent
deriving DecidableEq

/-- int16 lower bound. -/
def INT16_MIN : Int := -32768

/-- int16 upper bound. -/
def INT16_MAX : Int := 32767

/-- uint16 upper bound. -/
def UINT16_MAX : Nat := 65535

/-- int32 lower bound. -/
def INT32_MIN : Int := -2147483648

/-- int32 upper bound. -/
def INT32_MAX : Int := 2147483647

/-- Modelled from the spec: `mavlink_int_to_mission_cmd` (body in
AP_Mission.cpp, not in the snapshot) converts a wire mission item into
the internal command per the per-id field table, validating field ranges
and returning a standardized rejection code instead of a boolean
(spec §4.4); an id outside the supported set is rejected as
unsupported. -/
def mavlink_int_to_mission_cmd (packet : mavlink_mission_item_int_t) :
    Except MAV_MISSION_RESULT CodecCommand :=
  if packet.command = MAV_CMD_NAV_WAYPOINT then
    if 0 ≤ packet.param1 ∧ packet.param1 ≤ (UINT16_MAX : Int) then
      if INT32_MIN ≤ packet.x ∧ packet.x ≤ INT32_MAX
          ∧ INT32_MIN ≤ packet.y ∧ packet.y ≤ INT32_MAX then
        Except.ok
          { id := MAV_CMD_NAV_WAYPOINT,
            p1 := packet.param1.toNat,
            content := CodecContent.location_content packet.x packet.y packet.z
              packet.frame }
      else Except.error MAV_MISSION_RESULT.MAV_MISSION_INVALID_PARAM2
    else Except.error MAV_MISSION_RESULT.MAV_MISSION_INVALID_PARAM1
  else if packet.command = MAV_CMD_CONDITION_DELAY then
    Except.ok
      { id := MAV_CMD_CONDITION_DELAY,
        p1 := 0,
        content := CodecContent.delay_content packet.param1 }
  else if packet.command = MAV_CMD_DO_JUMP then
    if 0 ≤ packet.param1 ∧ packet.param1 ≤ (UINT16_MAX : Int) then
      if INT16_MIN ≤ packet.param2 ∧ packet.param2 ≤ INT16_MAX then
        Except.ok
          { id := MAV_CMD_DO_JUMP,
            p1 := 0,
            content := CodecContent.jump_content packet.param1.toNat
              packet.param2 }
      else Except.error MAV_MISSION_RESULT.MAV_MISSION_INVALID_PARAM2
    else Except.error MAV_MISSION_RESULT.MAV_MISSION_INVALID_PARAM1
  else if packet.command = MAV_CMD_DO_SET_SERVO then
    if 0 ≤ packet.param1 ∧ packet.param1 ≤ 255 then
      if 0 ≤ packet.param2 ∧ packet.param2 ≤ (UINT16_MAX : Int) then
        Except.ok
          { id := MAV_CMD_DO_SET_SERVO,
            p1 := 0,
            content := CodecContent.servo_content packet.param1.toNat
              packet.param2.toNat }
      else Except.error MAV_MISSION_RESULT.MAV_MISSION_INVALID_PARAM2
    else Except.error MAV_MISSION_RESULT.MAV_MISSION_INVALID_PARAM1
  else if packet.command = MAV_CMD_JUMP_TAG then
    if 0 ≤ packet.param1 ∧ packet.param1 ≤ (UINT16_MAX : Int) then
      Except.ok
        { id := MAV_CMD_JUMP_TAG,
          p1 := packet.param1.toNat,
          content := CodecContent.empty_content }
    else Except.error MAV_MISSION_RESULT.MAV_MISSION_INVALID_PARAM1
  else Except.error MAV_MISSION_RESULT.MAV_MISSION_UNSUPPORTED

/-- Modelled from the spec: `mission_cmd_to_mavlink_int` (body in
AP_Mission.cpp, not in the snapshot) converts the internal command into
a wire mission item using the same per-id field table in the opposite
direction, starting from a zeroed item; it returns false (here: none)
when the command cannot be represented. -/
def mission_cmd_to_mavlink_int (cmd : CodecCommand) :
    Option mavlink_mission_item_int_t :=
  if cmd.id = MAV_CMD_NAV_WAYPOINT then
    match cmd.content with
    | CodecContent.location_content lat lng alt frame =>
      some
        { zero_mission_item_int with
            command := MAV_CMD_NAV_WAYPOINT,
            param1 := (cmd.p1 : Int),
            x := lat,
            y := lng,
            z := alt,
            frame := frame }
    | _ => none
  else if cmd.id = MAV_CMD_CONDITION_DELAY then
    match cmd.content with
    | CodecContent.delay_content seconds =>
      some
        { zero_mission_item_int with
            command := MAV_CMD_CONDITION_DELAY,
            param1 := seconds }
    | _ => none
  else if cmd.id = MAV_CMD_DO_JUMP then
    match cmd.content with
    | CodecContent.jump_content target num_times =>
      some
        { zero_mission_item_int with
            command := MAV_CMD_DO_JUMP,
            param1 := (target : Int),
            param2 := num_times }
    | _ => none
  else if cmd.id = MAV_CMD_DO_SET_SERVO then
    match cmd.content with
    | CodecContent.servo_content channel pwm =>
      some
        { zero_mission_item_int with
            command := MAV_CMD_DO_SET_SERVO,
            param1 := (channel : Int),
            param2 := (pwm : Int) }
    | _ => none
  else if cmd.id = MAV_CMD_JUMP_TAG then
    match cmd.content with
    | CodecContent.empty_content =>
      some
        { zero_mission_item_int with
            command := MAV_CMD_JUMP_TAG,
            param1 := (cmd.p1 : Int) }
    | _ => none
  else none

/-- A codec command is well-formed when its id is in the supported set,
its content is the union member that id selects, every field fits the
storage width the wire parameter feeds, and the fields the wire format
cannot represent for that id (the otherwise-unused p1) hold their reset
value 0 — these are exactly the explicitly enumerated exclusions of the
round-trip property. -/
def codec_well_formed (cmd : CodecCommand) : Prop :=
  if cmd.id = MAV_CMD_NAV_WAYPOINT then
    match cmd.content with
    | CodecContent.location_content lat lng _ _ =>
      cmd.p1 ≤ UINT16_MAX ∧ INT32_MIN ≤ lat ∧ lat ≤ INT32_MAX
        ∧ INT32_MIN ≤ lng ∧ lng ≤ INT32_MAX
    | _ => False
  else if cmd.id = MAV_CMD_CONDITION_DELAY then
    match cmd.content with
    | CodecContent.delay_content _ => cmd.p1 = 0
    | _ => False
  else if cmd.id = MAV_CMD_DO_JUMP then
    match cmd.content with
    | CodecContent.jump_content target num_times =>
      cmd.p1 = 0 ∧ target ≤ UINT16_MAX
        ∧ INT16_MIN ≤ num_times ∧ num_times ≤ INT16_MAX
    | _ => False
  else if cmd.id = MAV_CMD_DO_SET_SERVO then
    match cmd.content with
    | CodecContent.servo_content channel pwm =>
      cmd.p1 = 0 ∧ channel ≤ 255 ∧ pwm ≤ UINT16_MAX
    | _ => False
  else if cmd.id = MAV_CMD_JUMP_TAG then
    match cmd.content with
    | CodecContent.empty_content => cmd.p1 ≤ UINT16_MAX
    | _ => False
  else False

-- ------------------------------------------------------------------
-- C1/C2/C5: the jump tracker and the navigation advancement search
-- (declarations AP_Mission.h lines 820-855; bodies in AP_Mission.cpp,
-- modelled from spec §4.2 and §4.3 step 3).
-- ------------------------------------------------------------------

/-- Modelled from the spec: `get_jump_times_run` (declared AP_Mission.h
lines 850-852) scans the fixed-capacity table linearly; a slot holding
the command's index yields its recorded count, the first unused slot
records the jump with count 0 (an unseen jump reads as 0, §4.2), and
when every slot is taken by other jumps the tracking fails and the
value AP_MISSION_JUMP_TIMES_MAX is returned, per that constant's
documentation (AP_Mission.h line 41).  Returns the count and the
possibly-updated table. -/
def get_jump_times_run :
    List jump_tracking_struct → Nat → Int × List jump_tracking_struct
  | [], _ => (AP_MISSION_JUMP_TIMES_MAX, [])
  | e :: rest, cmd_index =>
    if e.index = cmd_index then (e.num_times_run, e :: rest)
    else if e.index = AP_MISSION_CMD_INDEX_NONE then
      (0, { index := cmd_index, num_times_run := 0 } :: rest)
    else
      ((get_jump_times_run rest cmd_index).1,
        e :: (get_jump_times_run rest cmd_index).2)

/-- Modelled from the spec: `increment_jump_times_run` (declared
AP_Mission.h lines 854-855) bumps the recorded count of the jump,
recording it with count 1 if unseen; a full table leaves the table
unchanged (§4.2 soft degradation). -/
def increment_jump_times_run :
    List jump_tracking_struct → Nat → List jump_tracking_struct
  | [], _ => []
  | e :: rest, cmd_index =>
    if e.index = cmd_index then
      { index := e.index, num_times_run := e.num_times_run + 1 } :: rest
    else if e.index = AP_MISSION_CMD_INDEX_NONE then
      { index := cmd_index, num_times_run := 1 } :: rest
    else e :: increment_jump_times_run rest cmd_index

/-- The hard iteration bound of the navigation search, proportional to
the jump-table capacity (spec §4.3: "a hard iteration bound
(proportional to the jump-table capacity)"; the proportionality factor
2 is fixed here). -/
def AP_MISSION_MAX_LOOPS : Nat := 2 * AP_MISSION_MAX_NUM_DO_JUMP_COMMANDS

/-- The outcome of one search: the command found (none = mission
complete), the updated jump table, and the number of do-jump commands
the search processed (each one consumes one unit of the bound). -/
structure SearchResult where
  found : Option MissionCommand
  jt : List jump_tracking_struct
  jumps_processed : Nat
deriving DecidableEq

/-- Accounts one processed do-jump command in a search outcome. -/
def bump_search_result (r : SearchResult) : SearchResult :=
  { found := r.found, jt := r.jt, jumps_processed := r.jumps_processed + 1 }

/-- Modelled from the spec: the loop of `get_next_cmd` (declared
AP_Mission.h lines 832-836) reads the command at the current position
and returns the first non-jump command; a do-jump command first consumes
one unit of the iteration bound (exhaustion aborts the search), is
rejected if its target lies beyond the list (logical fault, §7), is
always followed when its repeat count is the forever sentinel, and
otherwise is followed (with the run counter incremented when
increment-if-found is set) exactly when its recorded times-run is still
below its repeat count, the search resuming past it once exhausted.
Reading past the end of the list is mission complete. -/
def get_next_cmd_loop (m : Mission) (inc : Bool) :
    Nat → Nat → List jump_tracking_struct → SearchResult
  | 0, cmd_index, jt =>
    match read_cmd_from_storage m cmd_index with
    | none => { found := none, jt := jt, jumps_processed := 0 }
    | some c =>
      if c.id = MAV_CMD_DO_JUMP then
        { found := none, jt := jt, jumps_processed := 0 }
      else { found := some c, jt := jt, jumps_processed := 0 }
  | fuel + 1, cmd_index, jt =>
    match read_cmd_from_storage m cmd_index with
    | none => { found := none, jt := jt, jumps_processed := 0 }
    | some c =>
      if c.id = MAV_CMD_DO_JUMP then
        (if m.cmds.length ≤ c.jump.target then
          { found := none, jt := jt, jumps_processed := 1 }
        else if c.jump.num_times = AP_MISSION_JUMP_REPEAT_FOREVER then
          bump_search_result (get_next_cmd_loop m inc fuel c.jump.target jt)
        else if (get_jump_times_run jt c.index).1 < c.jump.num_times then
          bump_search_result
            (get_next_cmd_loop m inc fuel c.jump.target
              (if inc then
                increment_jump_times_run (get_jump_times_run jt c.index).2
                  c.index
              else (get_jump_times_run jt c.index).2))
        else
          bump_search_result
            (get_next_cmd_loop m inc fuel (cmd_index + 1)
              (get_jump_times_run jt c.index).2))
      else { found := some c, jt := jt, jumps_processed := 0 }

/-- Modelled from the spec: `get_next_cmd` enters the search loop with
the full iteration bound. -/
def get_next_cmd (m : Mission) (jt : List jump_tracking_struct)
    (start_index : Nat) (increment_jump_num_times_if_found : Bool) :
    SearchResult :=
  get_next_cmd_loop m increment_jump_num_times_if_found AP_MISSION_MAX_LOOPS
    start_index jt

/-- Modelled from the spec: `is_nav_cmd` (declared AP_Mission.h line
555) — a command whose id lies in the basic navigation range is a
navigation command (glossary: waypoint, loiter, RTL...). -/
def is_nav_cmd (cmd : MissionCommand) : Bool :=
  cmd.id ≤ MAV_CMD_NAV_LAST

/-- Modelled from the spec: the loop of `advance_current_nav_cmd`
(declared AP_Mission.h lines 820-825) repeatedly takes the next command
from the search, stopping at the first navigation command; non-nav
("do") commands are picked up along the way and the search continues
just past them (§4.3 steps 3-4).  The descending counter bounds the
do-command walk. -/
def advance_nav_search (m : Mission) :
    Nat → Nat → List jump_tracking_struct →
      Option MissionCommand × List jump_tracking_struct
  | 0, _, jt => (none, jt)
  | fuel + 1, cmd_index, jt =>
    match get_next_cmd m jt cmd_index true with
    | { found := none, jt := jt2, jumps_processed := _ } => (none, jt2)
    | { found := some c, jt := jt2, jumps_processed := _ } =>
      if is_nav_cmd c then (some c, jt2)
      else advance_nav_search m fuel (c.index + 1) jt2

/-- Modelled from the spec: `advance_current_nav_cmd` starts the search
just past the current navigation command (from the first real command
when none is loaded), loads the navigation command found, and on a
failed search marks the mission complete (§4.3 step 3, §7
search-bound-exceeded treated as mission complete). -/
def advance_current_nav_cmd (m : Mission) (s : MissionState) : MissionState :=
  match advance_nav_search m (m.cmds.length + 1)
      (if s.nav_cmd.index = AP_MISSION_CMD_INDEX_NONE then
        AP_MISSION_FIRST_REAL_COMMAND
      else s.nav_cmd.index + 1) s.jump_tracking with
  | (none, jt2) =>
    { nav_cmd := s.nav_cmd, jump_tracking := jt2,
      flags_state := mission_state.MISSION_COMPLETE }
  | (some c, jt2) =>
    { nav_cmd := c, jump_tracking := jt2, flags_state := s.flags_state }

/-- Repeated navigation advancement of a freshly started mission: step 0
performs the initial load, each further step advances once (one verify
completion per control cycle, §4.3). -/
def run_mission (m : Mission) : Nat → MissionState
  | 0 =>
    advance_current_nav_cmd m
      { nav_cmd := null_mission_command, jump_tracking := init_jump_tracking,
        flags_state := mission_state.MISSION_RUNNING }
  | k + 1 => advance_current_nav_cmd m (run_mission m k)

-- ------------------------------------------------------------------
-- Concrete missions used by C1, C2 and C5.
-- ------------------------------------------------------------------

/-- The home pseudo-command at index 0. -/
def home_cmd : MissionCommand :=
  { index := 0, id := MAV_CMD_NAV_WAYPOINT, p1 := 0,
    jump := { target := 0, num_times := 0 }, type_specific_bits := 0 }

/-- Waypoint A, the jump target of the do-jump scenario (index 1). -/
def wp_a : MissionCommand :=
  { index := 1, id := MAV_CMD_NAV_WAYPOINT, p1 := 0,
    jump := { target := 0, num_times := 0 }, type_specific_bits := 0 }

/-- The do-jump command at index 2, redirecting to waypoint A with the
given repeat count. -/
def do_jump_at_2 (num_times : Int) : MissionCommand :=
  { index := 2, id := MAV_CMD_DO_JUMP, p1 := 0,
    jump := { target := 1, num_times := num_times }, type_specific_bits := 0 }

/-- Waypoint B, past the jump (index 3). -/
def wp_b : MissionCommand :=
  { index := 3, id := MAV_CMD_NAV_WAYPOINT, p1 := 0,
    jump := { target := 0, num_times := 0 }, type_specific_bits := 0 }

/-- The spec §8 do-jump scenario [home, WP@A, JUMP(target=1,count=N),
WP@B]. -/
def jump_loop_mission (num_times : Int) : Mission :=
  { cmds := [home_cmd, wp_a, do_jump_at_2 num_times, wp_b] }

/-- A do-jump command forming part of a cycle: index i, forever repeat. -/
def forever_jump_cmd (i target : Nat) : MissionCommand :=
  { index := i, id := MAV_CMD_DO_JUMP, p1 := 0,
    jump := { target := target, num_times := AP_MISSION_JUMP_REPEAT_FOREVER },
    type_specific_bits := 0 }

/-- A mission whose two do-jump commands form a cycle (1 → 2 → 1 → ...)
with no navigation command reachable. -/
def cyclic_jump_mission : Mission :=
  { cmds := [home_cmd, forever_jump_cmd 1 2, forever_jump_cmd 2 1] }

/-- A finite (run-once) do-jump command at index i. -/
def chain_jump_cmd (i target : Nat) : MissionCommand :=
  { index := i, id := MAV_CMD_DO_JUMP, p1 := 0,
    jump := { target := target, num_times := 1 }, type_specific_bits := 0 }

/-- A navigation command at index i. -/
def nav_cmd_at_index (i : Nat) : MissionCommand :=
  { index := i, id := MAV_CMD_NAV_WAYPOINT, p1 := 0,
    jump := { target := 0, num_times := 0 }, type_specific_bits := 0 }

/-- A mission with more do-jump commands (16) than the jump-table
capacity (15): a chain of run-once jumps 1 → 2 → ... → 16 filling the
table, then the 16th jump targeting the navigation command at index 18,
with another navigation command at index 17 just past the jump. -/
def jump_overflow_mission : Mission :=
  { cmds := [home_cmd,
      chain_jump_cmd 1 2, chain_jump_cmd 2 3, chain_jump_cmd 3 4,
      chain_jump_cmd 4 5, chain_jump_cmd 5 6, chain_jump_cmd 6 7,
      chain_jump_cmd 7 8, chain_jump_cmd 8 9, chain_jump_cmd 9 10,
      chain_jump_cmd 10 11, chain_jump_cmd 11 12, chain_jump_cmd 12 13,
      chain_jump_cmd 13 14, chain_jump_cmd 14 15, chain_jump_cmd 15 16,
      chain_jump_cmd 16 18, nav_cmd_at_index 17, nav_cmd_at_index 18] }

/-- The jump table of the do-jump scenario after the jump at index 2 has
been followed k times (slot 0 tracks it, the other slots unused). -/
def jump_table_after (k : Nat) : List jump_tracking_struct :=
  { index := 2, num_times_run := (k : Int) } ::
    List.replicate (AP_MISSION_MAX_NUM_DO_JUMP_COMMANDS - 1)
      { index := AP_MISSION_CMD_INDEX_NONE, num_times_run := 0 }

/-- The engine state of a freshly started (running, nothing loaded)
mission. -/
def running_start_state : MissionState :=
  { nav_cmd := null_mission_command, jump_tracking := init_jump_tracking,
    flags_state := mission_state.MISSION_RUNNING }

-- ==================================================================
-- Theorems
-- ==================================================================

-- ------------------------------------------------------------------
-- C9
-- ------------------------------------------------------------------

/-- Claim C9: whenever no navigation command is loaded (the current nav
command's index equals the reserved none sentinel 65535),
get_current_nav_index returns 0 rather than the sentinel; whenever a
navigation command is loaded it returns that command's list index
unchanged. -/
theorem c9_get_current_nav_index (s : MissionState) :
    (s.nav_cmd.index = AP_MISSION_CMD_INDEX_NONE → get_current_nav_index s = 0)
    ∧ (s.nav_cmd.index ≠ AP_MISSION_CMD_INDEX_NONE →
        get_current_nav_index s = s.nav_cmd.index) := by
  constructor
  · intro h
    simp [get_current_nav_index, h]
  · intro h
    simp [get_current_nav_index, h]

/-- Witness for C9: the constructor state (nav index = 65535) reports
index 0, and a state holding the command at list index 5 reports 5. -/
theorem c9_get_current_nav_index_witness :
    get_current_nav_index constructor_mission_state = 0
    ∧ get_current_nav_index
        { nav_cmd := { null_mission_command with index := 5 },
          jump_tracking := init_jump_tracking,
          flags_state := mission_state.MISSION_RUNNING } = 5 :=
  ⟨(c9_get_current_nav_index constructor_mission_state).1 (by decide),
   (c9_get_current_nav_index _).2 (by decide)⟩

-- ------------------------------------------------------------------
-- C10
-- ------------------------------------------------------------------

/-- Claim C10: get_loiter_turns returns the low byte of p1, additionally
multiplied by 1/256 exactly when bit 1 of type_specific_bits is set;
consequently the result is always non-negative and at most 255. -/
theorem c10_get_loiter_turns (cmd : MissionCommand) :
    (get_loiter_turns cmd =
      if cmd.type_specific_bits &&& 2 ≠ 0 then (LOWBYTE cmd.p1 : Rat) / 256
      else (LOWBYTE cmd.p1 : Rat))
    ∧ 0 ≤ get_loiter_turns cmd ∧ get_loiter_turns cmd ≤ 255 := by
  have hb : (LOWBYTE cmd.p1 : Rat) ≤ 255 := by
    have h1 : LOWBYTE cmd.p1 ≤ 255 := by
      have := Nat.mod_lt cmd.p1 (show 0 < 256 by norm_num)
      simp only [LOWBYTE]
      omega
    exact_mod_cast h1
  have hnn : (0 : Rat) ≤ (LOWBYTE cmd.p1 : Rat) := by positivity
  have hshl : (1 <<< 1 : Nat) = 2 := rfl
  have hunf : get_loiter_turns cmd =
      if cmd.type_specific_bits &&& 2 ≠ 0 then (LOWBYTE cmd.p1 : Rat) * (1 / 256)
      else (LOWBYTE cmd.p1 : Rat) := by
    simp only [get_loiter_turns, hshl]
  refine ⟨?_, ?_, ?_⟩
  · rw [hunf]
    split
    · ring
    · rfl
  · rw [hunf]
    split
    · positivity
    · exact hnn
  · rw [hunf]
    split
    · calc (LOWBYTE cmd.p1 : Rat) * (1 / 256) ≤ 255 * (1 / 256) := by
            apply mul_le_mul_of_nonneg_right hb
            norm_num
        _ ≤ 255 := by norm_num
    · exact hb

-- ------------------------------------------------------------------
-- C8
-- ------------------------------------------------------------------

/-- memcmp over byte lists returns 0 exactly when the two lists are
identical. -/
theorem memcmp_bytes_eq_zero_iff :
    ∀ xs ys : List Nat, memcmp_bytes xs ys = 0 ↔ xs = ys := by
  intro xs
  induction xs with
  | nil =>
    intro ys
    cases ys <;> simp [memcmp_bytes]
  | cons a as ih =>
    intro ys
    cases ys with
    | nil => simp [memcmp_bytes]
    | cons b bs =>
      simp only [memcmp_bytes]
      by_cases hab : a < b
      · simp only [if_pos hab]
        constructor
        · intro h
          cases h
        · intro h
          injection h with h1 h2
          omega
      · by_cases hba : b < a
        · simp only [if_neg hab, if_pos hba]
          constructor
          · intro h
            cases h
          · intro h
            injection h with h1 h2
            omega
        · have hab2 : a = b := by omega
          simp only [if_neg hab, if_neg hba]
          rw [ih bs]
          subst hab2
          simp

/-- Claim C8: for Mission_Command values a and b, a == b holds if and
only if every byte of the two structures matches (memcmp over
sizeof(Mission_Command) returns 0), including inactive union member and
padding bytes; and a != b is the exact negation of a == b. -/
theorem c8_mission_command_equality (a b : Mission_Command_bytes) :
    (mission_command_eq a b = true ↔ a.val = b.val)
    ∧ mission_command_ne a b = (! mission_command_eq a b)
    ∧ (mission_command_ne a b = true ↔ ¬ (a.val = b.val)) := by
  have h1 : mission_command_eq a b = true ↔ a.val = b.val := by
    simp only [mission_command_eq, beq_iff_eq]
    exact memcmp_bytes_eq_zero_iff a.val b.val
  refine ⟨h1, rfl, ?_⟩
  rw [mission_command_ne]
  cases heq : mission_command_eq a b with
  | true => simp [h1.mp heq]
  | false =>
    simp only [heq, Bool.not_false, true_iff]
    intro hval
    have h2 := h1.mpr hval
    rw [heq] at h2
    cases h2

-- ------------------------------------------------------------------
-- C4
-- ------------------------------------------------------------------

/-- Claim C4: for every storage region whose leading 2-byte version word
differs from AP_MISSION_EEPROM_VERSION, init clears the command list,
yielding an empty mission of zero commands; init is declared void, so no
Failure is reported to the caller (the embedded init is total into
MissionEngineConfig with no failure channel). -/
theorem c4_version_mismatch_clears (storage : List Nat) (stored_cmd_total : Nat)
    (h : storage_read_uint16 storage 0 ≠ AP_MISSION_EEPROM_VERSION) :
    num_commands (mission_lib_init storage stored_cmd_total) = 0 := by
  simp [mission_lib_init, num_commands, check_eeprom_version, h]

/-- Witness for C4: a storage region whose version word reads 0 (not
0x65AE) yields zero commands even though 10 were recorded. -/
theorem c4_version_mismatch_clears_witness :
    num_commands (mission_lib_init [0, 0, 7, 7] 10) = 0 :=
  c4_version_mismatch_clears [0, 0, 7, 7] 10 (by decide)

-- ------------------------------------------------------------------
-- C7
-- ------------------------------------------------------------------

/-- Pushing one value shifts the ring and appends at the last slot. -/
theorem wp_history_push_many_eq :
    ∀ (vs : List Nat) (h : List Nat), h.length = AP_MISSION_MAX_WP_HISTORY →
      wp_history_push_many h vs =
        (h ++ vs).drop (h.length + vs.length - AP_MISSION_MAX_WP_HISTORY) := by
  intro vs
  induction vs with
  | nil =>
    intro h hlen
    simp [wp_history_push_many, hlen]
  | cons v vs ih =>
    intro h hlen
    have hne : h ≠ [] := by
      intro hh
      rw [hh] at hlen
      simp [AP_MISSION_MAX_WP_HISTORY] at hlen
    obtain ⟨a, t, rfl⟩ := List.exists_cons_of_ne_nil hne
    have hlen2 : (t ++ [v]).length = AP_MISSION_MAX_WP_HISTORY := by
      simp at hlen ⊢
      omega
    have step : wp_history_push_many (a :: t) (v :: vs) =
        wp_history_push_many (t ++ [v]) vs := by
      simp [wp_history_push_many, wp_history_push]
    rw [step, ih (t ++ [v]) hlen2]
    have hlt : t.length + 1 = AP_MISSION_MAX_WP_HISTORY := by
      simpa using hlen
    have harr : (t ++ [v]) ++ vs = t ++ (v :: vs) := by
      simp
    rw [harr]
    have hidx1 : (t ++ [v]).length + vs.length - AP_MISSION_MAX_WP_HISTORY
        = vs.length := by
      simp
      omega
    have hidx2 : (a :: t).length + (v :: vs).length - AP_MISSION_MAX_WP_HISTORY
        = vs.length + 1 := by
      simp
      omega
    rw [hidx1, hidx2]
    rfl

/-- Claim C7: pushing K navigation-command indices into the WP history
ring with K greater than the ring's capacity leaves the ring holding
exactly the most recent `capacity` pushed indices in visitation order
(the oldest entries having been overwritten first); the capacity is the
build-time constant AP_MISSION_MAX_WP_HISTORY = 7. -/
theorem c7_wp_history_ring (h : List Nat) (vs : List Nat)
    (hlen : h.length = AP_MISSION_MAX_WP_HISTORY)
    (hk : AP_MISSION_MAX_WP_HISTORY ≤ vs.length) :
    wp_history_push_many h vs = vs.drop (vs.length - AP_MISSION_MAX_WP_HISTORY)
    ∧ (wp_history_push_many h vs).length = AP_MISSION_MAX_WP_HISTORY
    ∧ AP_MISSION_MAX_WP_HISTORY = 7 := by
  have hmain := wp_history_push_many_eq vs h hlen
  have hdrop : (h ++ vs).drop (h.length + vs.length - AP_MISSION_MAX_WP_HISTORY)
      = vs.drop (vs.length - AP_MISSION_MAX_WP_HISTORY) := by
    rw [List.drop_append_eq_append_drop]
    have e1 : h.drop (h.length + vs.length - AP_MISSION_MAX_WP_HISTORY) = [] := by
      apply List.drop_eq_nil_of_le
      omega
    rw [e1, List.nil_append]
    congr 1
    omega
  have h1 : wp_history_push_many h vs
      = vs.drop (vs.length - AP_MISSION_MAX_WP_HISTORY) := by
    rw [hmain, hdrop]
  refine ⟨h1, ?_, rfl⟩
  rw [h1]
  simp
  omega

/-- Witness for C7: pushing the 8 indices 1..8 into the reset ring of
capacity 7 leaves exactly the most recent 7, in visitation order. -/
theorem c7_wp_history_ring_witness :
    wp_history_push_many initial_wp_history [1, 2, 3, 4, 5, 6, 7, 8]
      = [2, 3, 4, 5, 6, 7, 8] := by
  have h := (c7_wp_history_ring initial_wp_history [1, 2, 3, 4, 5, 6, 7, 8]
    (by decide) (by decide)).1
  simpa using h

-- ------------------------------------------------------------------
-- C6
-- ------------------------------------------------------------------

/-- The scan loop finds the first matching index at or after its start,
returning 0 when there is none. -/
theorem jump_tag_scan_spec (m : Mission) (tag : Nat) :
    ∀ (fuel i : Nat), m.cmds.length ≤ i + fuel →
      (jump_tag_scan m tag fuel i = 0 ∧ ∀ j, i ≤ j → tag_match m tag j = false)
      ∨ (i ≤ jump_tag_scan m tag fuel i
          ∧ tag_match m tag (jump_tag_scan m tag fuel i) = true
          ∧ ∀ j, i ≤ j → j < jump_tag_scan m tag fuel i →
              tag_match m tag j = false) := by
  intro fuel
  induction fuel with
  | zero =>
    intro i hd
    left
    have hge : m.cmds.length ≤ i := by omega
    constructor
    · rfl
    · intro j hj
      have hj2 : m.cmds.length ≤ j := le_trans hge hj
      simp [tag_match, List.getElem?_eq_none hj2]
  | succ fuel ih =>
    intro i hd
    cases hc : m.cmds[i]? with
    | none =>
      left
      have hge : m.cmds.length ≤ i := by
        by_contra hlt
        rw [List.getElem?_eq_getElem (by omega)] at hc
        cases hc
      constructor
      · simp [jump_tag_scan, hc]
      · intro j hj
        have hj2 : m.cmds.length ≤ j := le_trans hge hj
        simp [tag_match, List.getElem?_eq_none hj2]
    | some c =>
      by_cases hmatch : c.id = MAV_CMD_JUMP_TAG ∧ c.p1 = tag
      · right
        have hscan : jump_tag_scan m tag (fuel + 1) i = i := by
          simp [jump_tag_scan, hc, hmatch]
        rw [hscan]
        refine ⟨le_refl i, ?_, ?_⟩
        · simp [tag_match, hc, hmatch.1, hmatch.2]
        · intro j hj1 hj2
          omega
      · have hscan : jump_tag_scan m tag (fuel + 1) i
            = jump_tag_scan m tag fuel (i + 1) := by
          simp [jump_tag_scan, hc, hmatch]
        have hcur : tag_match m tag i = false := by
          simp only [tag_match, hc]
          rw [Bool.and_eq_false_iff]
          rcases Decidable.not_and_iff_or_not.mp hmatch with h1 | h1
          · left
            simp [h1]
          · right
            simp [h1]
        have hd2 : m.cmds.length ≤ (i + 1) + fuel := by omega
        rw [hscan]
        rcases ih (i + 1) hd2 with ⟨hz, hnone⟩ | ⟨hle, hfound, hfirst⟩
        · left
          refine ⟨hz, ?_⟩
          intro j hj
          by_cases hji : j = i
          · rw [hji]
            exact hcur
          · exact hnone j (by omega)
        · right
          refine ⟨by omega, hfound, ?_⟩
          intro j hj1 hj2
          by_cases hji : j = i
          · rw [hji]
            exact hcur
          · exact hfirst j (by omega) hj2

/-- A three-command mission whose only JUMP_TAG (at index 2) carries tag
value 5. -/
def tagged_mission : Mission :=
  { cmds := [
      { index := 0, id := MAV_CMD_NAV_WAYPOINT, p1 := 0,
        jump := { target := 0, num_times := 0 }, type_specific_bits := 0 },
      { index := 1, id := MAV_CMD_NAV_WAYPOINT, p1 := 0,
        jump := { target := 0, num_times := 0 }, type_specific_bits := 0 },
      { index := 2, id := MAV_CMD_JUMP_TAG, p1 := 5,
        jump := { target := 0, num_times := 0 }, type_specific_bits := 0 }] }

/-- Counterexample to claim C6 as stated: looking up tag 9 in a mission
that has no JUMP_TAG with that value returns 0, not the reserved none
index sentinel AP_MISSION_CMD_INDEX_NONE = 65535 the claim names. -/
theorem c6_counterexample :
    get_index_of_jump_tag tagged_mission 9 = 0
    ∧ get_index_of_jump_tag tagged_mission 9 ≠ AP_MISSION_CMD_INDEX_NONE := by
  constructor
  · decide
  · decide

/-- Claim C6 amended: get_index_of_jump_tag performs a linear forward
scan over the stored command list (from the first real command) and
returns the index of the first JUMP_TAG command whose tag value equals
t; when no such command exists it returns 0 (per the header's doc
comment), not the none-index sentinel. -/
theorem c6_first_tag_scan (m : Mission) (tag : Nat) :
    (get_index_of_jump_tag m tag = 0
      ∧ ∀ j, AP_MISSION_FIRST_REAL_COMMAND ≤ j → tag_match m tag j = false)
    ∨ (AP_MISSION_FIRST_REAL_COMMAND ≤ get_index_of_jump_tag m tag
        ∧ tag_match m tag (get_index_of_jump_tag m tag) = true
        ∧ ∀ j, AP_MISSION_FIRST_REAL_COMMAND ≤ j →
            j < get_index_of_jump_tag m tag → tag_match m tag j = false) :=
  jump_tag_scan_spec m tag m.cmds.length AP_MISSION_FIRST_REAL_COMMAND
    (by simp [AP_MISSION_FIRST_REAL_COMMAND])

/-- Witness for C6 amended: instantiating the scan characterisation on
the concrete tagged mission and tag value 5. -/
theorem c6_first_tag_scan_witness :
    (get_index_of_jump_tag tagged_mission 5 = 0
      ∧ ∀ j, AP_MISSION_FIRST_REAL_COMMAND ≤ j →
          tag_match tagged_mission 5 j = false)
    ∨ (AP_MISSION_FIRST_REAL_COMMAND ≤ get_index_of_jump_tag tagged_mission 5
        ∧ tag_match tagged_mission 5 (get_index_of_jump_tag tagged_mission 5) = true
        ∧ ∀ j, AP_MISSION_FIRST_REAL_COMMAND ≤ j →
            j < get_index_of_jump_tag tagged_mission 5 →
            tag_match tagged_mission 5 j = false) :=
  c6_first_tag_scan tagged_mission 5

-- ------------------------------------------------------------------
-- C3
-- ------------------------------------------------------------------

/-- Claim C3: for every command id in the supported set and every
well-formed command of that id, converting the internal command to the
wire representation with mission_cmd_to_mavlink_int and converting the
result back with mavlink_int_to_mission_cmd reproduces the original
command exactly (the fields the wire format cannot represent being
exactly the ones well-formedness pins to their reset value). -/
theorem c3_wire_roundtrip (cmd : CodecCommand) (hwf : codec_well_formed cmd) :
    ∃ packet, mission_cmd_to_mavlink_int cmd = some packet
      ∧ mavlink_int_to_mission_cmd packet = Except.ok cmd := by
  obtain ⟨id, p1, content⟩ := cmd
  rw [codec_well_formed] at hwf
  by_cases h1 : id = MAV_CMD_NAV_WAYPOINT
  · subst h1
    rw [if_pos rfl] at hwf
    cases content with
    | location_content lat lng alt frame =>
      obtain ⟨hp1, ha, hb, hc, hd⟩ := hwf
      have hp1i : (p1 : Int) ≤ 65535 := by
        rw [UINT16_MAX] at hp1
        exact_mod_cast hp1
      refine
        ⟨{ zero_mission_item_int with
             command := MAV_CMD_NAV_WAYPOINT,
             param1 := (p1 : Int),
             x := lat,
             y := lng,
             z := alt,
             frame := frame }, ?_, ?_⟩
      · simp [mission_cmd_to_mavlink_int]
      · rw [INT32_MIN] at ha hc
        rw [INT32_MAX] at hb hd
        simp [mavlink_int_to_mission_cmd, zero_mission_item_int,
          MAV_CMD_NAV_WAYPOINT, UINT16_MAX, INT32_MIN, INT32_MAX,
          hp1i, Int.natCast_nonneg]
        omega
    | jump_content t n => exact hwf.elim
    | delay_content s => exact hwf.elim
    | servo_content a b => exact hwf.elim
    | empty_content => exact hwf.elim
  · rw [if_neg h1] at hwf
    by_cases h2 : id = MAV_CMD_CONDITION_DELAY
    · subst h2
      rw [if_pos rfl] at hwf
      cases content with
      | delay_content s =>
        subst hwf
        refine
          ⟨{ zero_mission_item_int with
               command := MAV_CMD_CONDITION_DELAY,
               param1 := s }, ?_, ?_⟩
        · simp [mission_cmd_to_mavlink_int, MAV_CMD_CONDITION_DELAY,
            MAV_CMD_NAV_WAYPOINT]
        · simp [mavlink_int_to_mission_cmd, zero_mission_item_int,
            MAV_CMD_CONDITION_DELAY, MAV_CMD_NAV_WAYPOINT]
      | jump_content t n => exact hwf.elim
      | location_content a b c d => exact hwf.elim
      | servo_content a b => exact hwf.elim
      | empty_content => exact hwf.elim
    · rw [if_neg h2] at hwf
      by_cases h3 : id = MAV_CMD_DO_JUMP
      · subst h3
        rw [if_pos rfl] at hwf
        cases content with
        | jump_content t n =>
          obtain ⟨hp1, ht, hn1, hn2⟩ := hwf
          subst hp1
          have hti : (t : Int) ≤ 65535 := by
            rw [UINT16_MAX] at ht
            exact_mod_cast ht
          refine
            ⟨{ zero_mission_item_int with
                 command := MAV_CMD_DO_JUMP,
                 param1 := (t : Int),
                 param2 := n }, ?_, ?_⟩
          · simp [mission_cmd_to_mavlink_int, MAV_CMD_DO_JUMP,
              MAV_CMD_NAV_WAYPOINT, MAV_CMD_CONDITION_DELAY]
          · rw [INT16_MIN] at hn1
            rw [INT16_MAX] at hn2
            simp [mavlink_int_to_mission_cmd, zero_mission_item_int,
              MAV_CMD_DO_JUMP, MAV_CMD_NAV_WAYPOINT, MAV_CMD_CONDITION_DELAY,
              UINT16_MAX, INT16_MIN, INT16_MAX, hti, Int.natCast_nonneg]
            omega
        | delay_content s => exact hwf.elim
        | location_content a b c d => exact hwf.elim
        | servo_content a b => exact hwf.elim
        | empty_content => exact hwf.elim
      · rw [if_neg h3] at hwf
        by_cases h4 : id = MAV_CMD_DO_SET_SERVO
        · subst h4
          rw [if_pos rfl] at hwf
          cases content with
          | servo_content channel pwm =>
            obtain ⟨hp1, hch, hpwm⟩ := hwf
            subst hp1
            have hchi : (channel : Int) ≤ 255 := by exact_mod_cast hch
            have hpwmi : (pwm : Int) ≤ 65535 := by
              rw [UINT16_MAX] at hpwm
              exact_mod_cast hpwm
            refine
              ⟨{ zero_mission_item_int with
                   command := MAV_CMD_DO_SET_SERVO,
                   param1 := (channel : Int),
                   param2 := (pwm : Int) }, ?_, ?_⟩
            · simp [mission_cmd_to_mavlink_int, MAV_CMD_DO_SET_SERVO,
                MAV_CMD_NAV_WAYPOINT, MAV_CMD_CONDITION_DELAY, MAV_CMD_DO_JUMP]
            · simp [mavlink_int_to_mission_cmd, zero_mission_item_int,
                MAV_CMD_DO_SET_SERVO, MAV_CMD_NAV_WAYPOINT,
                MAV_CMD_CONDITION_DELAY, MAV_CMD_DO_JUMP, UINT16_MAX,
                hchi, hpwmi, Int.natCast_nonneg]
          | delay_content s => exact hwf.elim
          | location_content a b c d => exact hwf.elim
          | jump_content a b => exact hwf.elim
          | empty_content => exact hwf.elim
        · rw [if_neg h4] at hwf
          by_cases h5 : id = MAV_CMD_JUMP_TAG
          · subst h5
            rw [if_pos rfl] at hwf
            cases content with
            | empty_content =>
              have hp1i : (p1 : Int) ≤ 65535 := by
                rw [UINT16_MAX] at hwf
                exact_mod_cast hwf
              refine
                ⟨{ zero_mission_item_int with
                     command := MAV_CMD_JUMP_TAG,
                     param1 := (p1 : Int) }, ?_, ?_⟩
              · simp [mission_cmd_to_mavlink_int, MAV_CMD_JUMP_TAG,
                  MAV_CMD_NAV_WAYPOINT, MAV_CMD_CONDITION_DELAY,
                  MAV_CMD_DO_JUMP, MAV_CMD_DO_SET_SERVO]
              · simp [mavlink_int_to_mission_cmd, zero_mission_item_int,
                  MAV_CMD_JUMP_TAG, MAV_CMD_NAV_WAYPOINT,
                  MAV_CMD_CONDITION_DELAY, MAV_CMD_DO_JUMP,
                  MAV_CMD_DO_SET_SERVO, UINT16_MAX, hp1i, Int.natCast_nonneg]
            | delay_content s => exact hwf.elim
            | location_content a b c d => exact hwf.elim
            | jump_content a b => exact hwf.elim
            | servo_content a b => exact hwf.elim
          · rw [if_neg h5] at hwf
            exact hwf.elim

/-- Witness for C3: a DO_JUMP command (target 3, repeat twice) is
well-formed and survives the internal-to-wire-to-internal round trip. -/
theorem c3_wire_roundtrip_witness :
    codec_well_formed
      { id := MAV_CMD_DO_JUMP,
        p1 := 0,
        content := CodecContent.jump_content 3 2 }
    ∧ ∃ packet,
        mission_cmd_to_mavlink_int
          { id := MAV_CMD_DO_JUMP,
            p1 := 0,
            content := CodecContent.jump_content 3 2 } = some packet
        ∧ mavlink_int_to_mission_cmd packet = Except.ok
            { id := MAV_CMD_DO_JUMP,
              p1 := 0,
              content := CodecContent.jump_content 3 2 } := by
  have hwf : codec_well_formed
      { id := MAV_CMD_DO_JUMP,
        p1 := 0,
        content := CodecContent.jump_content 3 2 } := by
    rw [codec_well_formed]
    norm_num [MAV_CMD_DO_JUMP, MAV_CMD_NAV_WAYPOINT, MAV_CMD_CONDITION_DELAY,
      UINT16_MAX, INT16_MIN, INT16_MAX]
  exact ⟨hwf, c3_wire_roundtrip _ hwf⟩

-- ------------------------------------------------------------------
-- C1
-- ------------------------------------------------------------------

/-- Every search processes at most as many do-jump commands as it has
fuel, whatever the mission, start position and table. -/
theorem get_next_cmd_loop_jumps_le (m : Mission) (inc : Bool) :
    ∀ (fuel cmd_index : Nat) (jt : List jump_tracking_struct),
      (get_next_cmd_loop m inc fuel cmd_index jt).jumps_processed ≤ fuel := by
  intro fuel
  induction fuel with
  | zero =>
    intro cmd_index jt
    simp only [get_next_cmd_loop]
    cases read_cmd_from_storage m cmd_index with
    | none => simp
    | some c =>
      by_cases hid : c.id = MAV_CMD_DO_JUMP <;> simp [hid]
  | succ fuel ih =>
    intro cmd_index jt
    simp only [get_next_cmd_loop]
    cases read_cmd_from_storage m cmd_index with
    | none => simp
    | some c =>
      by_cases hid : c.id = MAV_CMD_DO_JUMP
      · simp only [hid, if_true]
        by_cases htar : m.cmds.length ≤ c.jump.target
        · simp [htar]
        · simp only [if_neg htar]
          by_cases hfor : c.jump.num_times = AP_MISSION_JUMP_REPEAT_FOREVER
          · simp only [if_pos hfor, bump_search_result]
            have h := ih c.jump.target jt
            omega
          · simp only [if_neg hfor]
            by_cases hlt : (get_jump_times_run jt c.index).1 < c.jump.num_times
            · simp only [if_pos hlt, bump_search_result]
              have h := ih c.jump.target
                (if inc then
                  increment_jump_times_run (get_jump_times_run jt c.index).2
                    c.index
                else (get_jump_times_run jt c.index).2)
              omega
            · simp only [if_neg hlt, bump_search_result]
              have h := ih (cmd_index + 1) (get_jump_times_run jt c.index).2
              omega
      · simp [hid]

/-- Claim C1: for every mission, start index and table state, the
navigation-advancement search terminates within the hard iteration bound
AP_MISSION_MAX_LOOPS, which is proportional (factor 2) to the jump-table
capacity AP_MISSION_MAX_NUM_DO_JUMP_COMMANDS, even when the do-jump
commands form a cycle; on the concrete cyclic mission the bound is
exceeded, the search aborts finding nothing, and advancement then
treats the mission as complete. -/
theorem c1_search_iteration_bound :
    (∀ (m : Mission) (jt : List jump_tracking_struct) (start_index : Nat)
        (inc : Bool),
      (get_next_cmd m jt start_index inc).jumps_processed
        ≤ AP_MISSION_MAX_LOOPS)
    ∧ AP_MISSION_MAX_LOOPS = 2 * AP_MISSION_MAX_NUM_DO_JUMP_COMMANDS
    ∧ (get_next_cmd cyclic_jump_mission init_jump_tracking
        AP_MISSION_FIRST_REAL_COMMAND true).found = none
    ∧ (advance_current_nav_cmd cyclic_jump_mission
        running_start_state).flags_state = mission_state.MISSION_COMPLETE :=
  ⟨fun m jt start_index inc =>
      get_next_cmd_loop_jumps_le m inc AP_MISSION_MAX_LOOPS start_index jt,
    rfl, by decide, by decide⟩

-- ------------------------------------------------------------------
-- C5
-- ------------------------------------------------------------------

/-- Counterexample to claim C5 as stated: running the navigation search
over the 16-jump mission fills the 15-slot table with jumps 1..15; the
unseen 16th jump (whose target is the navigation command at index 18)
is then NOT followed — the search skips it and returns the navigation
command at index 17 instead — because with the table full its reported
times-run is AP_MISSION_JUMP_TIMES_MAX, i.e. the jump is treated as
exhausted, not as always-available. -/
theorem c5_counterexample :
    (get_next_cmd jump_overflow_mission init_jump_tracking
        AP_MISSION_FIRST_REAL_COMMAND true).found
      = some (nav_cmd_at_index 17)
    ∧ (get_next_cmd jump_overflow_mission init_jump_tracking
        AP_MISSION_FIRST_REAL_COMMAND true).found
      ≠ some (nav_cmd_at_index 18)
    ∧ (get_jump_times_run
        (get_next_cmd jump_overflow_mission init_jump_tracking
          AP_MISSION_FIRST_REAL_COMMAND true).jt 16).1
      = AP_MISSION_JUMP_TIMES_MAX := by
  refine ⟨by decide, by decide, by decide⟩

/-- Claim C5 amended: when the jump-tracking table is full (every slot
taken by other jump indices) and an unseen jump must be consulted,
tracking for that jump is dropped (the table is left unchanged) and
get_jump_times_run reports AP_MISSION_JUMP_TIMES_MAX; consequently the
advancement treats a finite-count jump as exhausted and searches past it
rather than following it (repeat-forever jumps never consult the tracker
and are unaffected); the condition is never fatal and does not fail the
mission — the search simply continues at the next index. -/
theorem c5_full_table_degradation :
    (∀ (jt : List jump_tracking_struct) (cmd_index : Nat),
      (∀ e ∈ jt, e.index ≠ cmd_index ∧ e.index ≠ AP_MISSION_CMD_INDEX_NONE) →
      get_jump_times_run jt cmd_index = (AP_MISSION_JUMP_TIMES_MAX, jt))
    ∧ (∀ (m : Mission) (inc : Bool) (fuel cmd_index : Nat)
        (jt : List jump_tracking_struct) (c : MissionCommand),
      read_cmd_from_storage m cmd_index = some c →
      c.id = MAV_CMD_DO_JUMP →
      c.jump.target < m.cmds.length →
      c.jump.num_times ≠ AP_MISSION_JUMP_REPEAT_FOREVER →
      c.jump.num_times ≤ AP_MISSION_JUMP_TIMES_MAX →
      (∀ e ∈ jt, e.index ≠ c.index ∧ e.index ≠ AP_MISSION_CMD_INDEX_NONE) →
      get_next_cmd_loop m inc (fuel + 1) cmd_index jt
        = bump_search_result (get_next_cmd_loop m inc fuel (cmd_index + 1) jt)) := by
  have hfull : ∀ (jt : List jump_tracking_struct) (cmd_index : Nat),
      (∀ e ∈ jt, e.index ≠ cmd_index ∧ e.index ≠ AP_MISSION_CMD_INDEX_NONE) →
      get_jump_times_run jt cmd_index = (AP_MISSION_JUMP_TIMES_MAX, jt) := by
    intro jt
    induction jt with
    | nil =>
      intro cmd_index h
      rfl
    | cons e rest ih =>
      intro cmd_index h
      have he := h e (by simp)
      have hr := ih cmd_index (fun x hx => h x (by simp [hx]))
      simp only [get_jump_times_run, if_neg he.1, if_neg he.2, hr]
  refine ⟨hfull, ?_⟩
  intro m inc fuel cmd_index jt c hread hid htar hfor hle hjt
  have hnlt : ¬ (get_jump_times_run jt c.index).1 < c.jump.num_times := by
    rw [hfull jt c.index hjt]
    simp only []
    omega
  simp only [get_next_cmd_loop, hread, hid, if_true,
    if_neg (show ¬ m.cmds.length ≤ c.jump.target by omega),
    if_neg hfor, if_neg hnlt, hfull jt c.index hjt]
  rw [if_neg (not_lt.mpr hle)]

/-- Witness for C5 amended: a one-slot table holding jump index 5
consulted for the unseen jump index 9 reports AP_MISSION_JUMP_TIMES_MAX
and drops tracking (table unchanged). -/
theorem c5_full_table_degradation_witness :
    get_jump_times_run [{ index := 5, num_times_run := 1 }] 9
      = (AP_MISSION_JUMP_TIMES_MAX, [{ index := 5, num_times_run := 1 }]) :=
  c5_full_table_degradation.1 [{ index := 5, num_times_run := 1 }] 9
    (by decide)

-- ------------------------------------------------------------------
-- C2
-- ------------------------------------------------------------------

/-- Consulting the fresh table for the scenario's jump (index 2)
records it with count 0. -/
theorem get_jump_times_run_fresh :
    get_jump_times_run init_jump_tracking 2 = (0, jump_table_after 0) := by
  decide

/-- Consulting the table already tracking the scenario's jump returns
its recorded count and leaves the table unchanged. -/
theorem get_jump_times_run_tracked (k : Nat) :
    get_jump_times_run (jump_table_after k) 2 = ((k : Int), jump_table_after k) := by
  simp [jump_table_after, get_jump_times_run]

/-- Incrementing the scenario's tracked jump bumps its count. -/
theorem increment_jump_times_run_tracked (k : Nat) :
    increment_jump_times_run (jump_table_after k) 2 = jump_table_after (k + 1) := by
  simp [jump_table_after, increment_jump_times_run]

/-- At position 1 the search immediately returns waypoint A (a non-jump
command), whatever fuel remains. -/
theorem loop_at_wp_a (n : Int) (inc : Bool) (fuel : Nat)
    (jt : List jump_tracking_struct) :
    get_next_cmd_loop (jump_loop_mission n) inc fuel 1 jt
      = { found := some wp_a, jt := jt, jumps_processed := 0 } := by
  cases fuel <;> rfl

/-- At position 3 the search immediately returns waypoint B. -/
theorem loop_at_wp_b (n : Int) (inc : Bool) (fuel : Nat)
    (jt : List jump_tracking_struct) :
    get_next_cmd_loop (jump_loop_mission n) inc fuel 3 jt
      = { found := some wp_b, jt := jt, jumps_processed := 0 } := by
  cases fuel <;> rfl

/-- Searching from the jump with k recorded runs and k still below the
repeat count follows the jump: waypoint A is found and the count becomes
k+1. -/
theorem search_follow_step (n : Int) (k : Nat) (hk : (k : Int) < n) :
    get_next_cmd (jump_loop_mission n) (jump_table_after k) 2 true
      = { found := some wp_a, jt := jump_table_after (k + 1),
          jumps_processed := 1 } := by
  have hn : ¬ ((do_jump_at_2 n).jump.num_times
      = AP_MISSION_JUMP_REPEAT_FOREVER) := by
    have h0 : (0 : Int) ≤ (k : Int) := Int.natCast_nonneg k
    simp only [do_jump_at_2, AP_MISSION_JUMP_REPEAT_FOREVER]
    omega
  have main : ∀ fuel : Nat,
      get_next_cmd_loop (jump_loop_mission n) true (fuel + 1) 2
          (jump_table_after k)
        = { found := some wp_a, jt := jump_table_after (k + 1),
            jumps_processed := 1 } := by
    intro fuel
    simp only [get_next_cmd_loop,
      show read_cmd_from_storage (jump_loop_mission n) 2
        = some (do_jump_at_2 n) from rfl]
    rw [if_pos (show (do_jump_at_2 n).id = MAV_CMD_DO_JUMP from rfl)]
    rw [if_neg (show ¬ ((jump_loop_mission n).cmds.length
      ≤ (do_jump_at_2 n).jump.target) by
        simp [jump_loop_mission, do_jump_at_2])]
    rw [if_neg hn]
    rw [show (do_jump_at_2 n).index = 2 from rfl]
    rw [get_jump_times_run_tracked k]
    rw [if_pos (show ((k : Int), jump_table_after k).1
      < (do_jump_at_2 n).jump.num_times from hk)]
    simp only [if_true, show ((k : Int), jump_table_after k).2
      = jump_table_after k from rfl]
    rw [increment_jump_times_run_tracked k]
    rw [show (do_jump_at_2 n).jump.target = 1 from rfl]
    rw [loop_at_wp_a]
    rfl
  exact main 29

/-- Searching from the jump once its count has reached the finite repeat
count skips it: waypoint B is found and the table is unchanged. -/
theorem search_exhaust_step (n : Nat) :
    get_next_cmd (jump_loop_mission (n : Int)) (jump_table_after n) 2 true
      = { found := some wp_b, jt := jump_table_after n,
          jumps_processed := 1 } := by
  have hn : ¬ ((do_jump_at_2 (n : Int)).jump.num_times
      = AP_MISSION_JUMP_REPEAT_FOREVER) := by
    have h0 : (0 : Int) ≤ (n : Int) := Int.natCast_nonneg n
    simp only [do_jump_at_2, AP_MISSION_JUMP_REPEAT_FOREVER]
    omega
  have main : ∀ fuel : Nat,
      get_next_cmd_loop (jump_loop_mission (n : Int)) true (fuel + 1) 2
          (jump_table_after n)
        = { found := some wp_b, jt := jump_table_after n,
            jumps_processed := 1 } := by
    intro fuel
    simp only [get_next_cmd_loop,
      show read_cmd_from_storage (jump_loop_mission (n : Int)) 2
        = some (do_jump_at_2 (n : Int)) from rfl]
    rw [if_pos (show (do_jump_at_2 (n : Int)).id = MAV_CMD_DO_JUMP from rfl)]
    rw [if_neg (show ¬ ((jump_loop_mission (n : Int)).cmds.length
      ≤ (do_jump_at_2 (n : Int)).jump.target) by
        simp [jump_loop_mission, do_jump_at_2])]
    rw [if_neg hn]
    rw [show (do_jump_at_2 (n : Int)).index = 2 from rfl]
    rw [get_jump_times_run_tracked n]
    rw [if_neg (show ¬ (((n : Int), jump_table_after n).1
      < (do_jump_at_2 (n : Int)).jump.num_times) from lt_irrefl (n : Int))]
    simp only [show ((n : Int), jump_table_after n).2
      = jump_table_after n from rfl]
    rw [loop_at_wp_b]
    rfl
  exact main 29

/-- Searching from the jump with a fresh table and a positive repeat
count records the jump, follows it (count becomes 1) and finds
waypoint A. -/
theorem search_follow_fresh (n : Int) (hn : 0 < n) :
    get_next_cmd (jump_loop_mission n) init_jump_tracking 2 true
      = { found := some wp_a, jt := jump_table_after 1,
          jumps_processed := 1 } := by
  have hnf : ¬ ((do_jump_at_2 n).jump.num_times
      = AP_MISSION_JUMP_REPEAT_FOREVER) := by
    simp only [do_jump_at_2, AP_MISSION_JUMP_REPEAT_FOREVER]
    omega
  have main : ∀ fuel : Nat,
      get_next_cmd_loop (jump_loop_mission n) true (fuel + 1) 2
          init_jump_tracking
        = { found := some wp_a, jt := jump_table_after 1,
            jumps_processed := 1 } := by
    intro fuel
    simp only [get_next_cmd_loop,
      show read_cmd_from_storage (jump_loop_mission n) 2
        = some (do_jump_at_2 n) from rfl]
    rw [if_pos (show (do_jump_at_2 n).id = MAV_CMD_DO_JUMP from rfl)]
    rw [if_neg (show ¬ ((jump_loop_mission n).cmds.length
      ≤ (do_jump_at_2 n).jump.target) by
        simp [jump_loop_mission, do_jump_at_2])]
    rw [if_neg hnf]
    rw [show (do_jump_at_2 n).index = 2 from rfl]
    rw [get_jump_times_run_fresh]
    rw [if_pos (show ((0 : Int), jump_table_after 0).1
      < (do_jump_at_2 n).jump.num_times from hn)]
    simp only [if_true, show ((0 : Int), jump_table_after 0).2
      = jump_table_after 0 from rfl]
    rw [show increment_jump_times_run (jump_table_after 0) 2
      = jump_table_after 1 from increment_jump_times_run_tracked 0]
    rw [show (do_jump_at_2 n).jump.target = 1 from rfl]
    rw [loop_at_wp_a]
    rfl
  exact main 29

/-- Searching from a zero-count jump with a fresh table records it and
skips it: waypoint B is found. -/
theorem search_exhaust_fresh :
    get_next_cmd (jump_loop_mission ((0 : Nat) : Int)) init_jump_tracking 2 true
      = { found := some wp_b, jt := jump_table_after 0,
          jumps_processed := 1 } := by
  decide

/-- Advancing the scenario mission from waypoint A hands over to the
search at position 2 and loads the navigation command it finds. -/
theorem advance_step (n : Int) (T T2 : List jump_tracking_struct)
    (c : MissionCommand) (p : Nat)
    (hsearch : get_next_cmd (jump_loop_mission n) T 2 true
      = { found := some c, jt := T2, jumps_processed := p })
    (hnav : is_nav_cmd c = true) :
    advance_current_nav_cmd (jump_loop_mission n)
      { nav_cmd := wp_a, jump_tracking := T,
        flags_state := mission_state.MISSION_RUNNING }
      = { nav_cmd := c, jump_tracking := T2,
          flags_state := mission_state.MISSION_RUNNING } := by
  unfold advance_current_nav_cmd
  norm_num [wp_a, AP_MISSION_CMD_INDEX_NONE]
  simp only [advance_nav_search, hsearch, hnav, if_true]

/-- The first advancement of the freshly started scenario mission loads
waypoint A without touching the jump table. -/
theorem run_mission_zero (n : Int) :
    run_mission (jump_loop_mission n) 0
      = { nav_cmd := wp_a, jump_tracking := init_jump_tracking,
          flags_state := mission_state.MISSION_RUNNING } := rfl

/-- While the jump's recorded count is at most its finite repeat count,
every advancement lands back on waypoint A, the count growing by one per
advancement. -/
theorem run_mission_wp_a (n : Nat) :
    ∀ k, k ≤ n →
      run_mission (jump_loop_mission (n : Int)) k
        = { nav_cmd := wp_a,
            jump_tracking :=
              if k = 0 then init_jump_tracking else jump_table_after k,
            flags_state := mission_state.MISSION_RUNNING } := by
  intro k
  induction k with
  | zero =>
    intro _
    rw [if_pos rfl]
    exact run_mission_zero (n : Int)
  | succ k ih =>
    intro hk
    have hk2 : k ≤ n := by omega
    simp only [run_mission]
    rw [ih hk2]
    by_cases hk0 : k = 0
    · subst hk0
      rw [if_pos rfl]
      have hn1 : (0 : Int) < (n : Int) := by exact_mod_cast (by omega : 0 < n)
      rw [advance_step (n : Int) init_jump_tracking (jump_table_after 1)
        wp_a 1 (search_follow_fresh (n : Int) hn1) rfl]
      simp
    · rw [if_neg hk0]
      have hkn : (k : Int) < (n : Int) := by exact_mod_cast (by omega : k < n)
      rw [advance_step (n : Int) (jump_table_after k) (jump_table_after (k + 1))
        wp_a 1 (search_follow_step (n : Int) k hkn) rfl]
      simp

/-- Once the jump's count has reached its finite repeat count, the next
advancement proceeds past it to waypoint B. -/
theorem run_mission_wp_b (n : Nat) :
    run_mission (jump_loop_mission (n : Int)) (n + 1)
      = { nav_cmd := wp_b, jump_tracking := jump_table_after n,
          flags_state := mission_state.MISSION_RUNNING } := by
  simp only [run_mission]
  rw [run_mission_wp_a n n le_rfl]
  by_cases hn0 : n = 0
  · subst hn0
    rw [if_pos rfl]
    rw [advance_step ((0 : Nat) : Int) init_jump_tracking (jump_table_after 0)
      wp_b 1 search_exhaust_fresh rfl]
  · rw [if_neg hn0]
    rw [advance_step (n : Int) (jump_table_after n) (jump_table_after n)
      wp_b 1 (search_exhaust_step n) rfl]

/-- With the forever repeat count every advancement follows the jump
back to waypoint A and the tracker is never consulted. -/
theorem run_mission_forever (k : Nat) :
    run_mission (jump_loop_mission AP_MISSION_JUMP_REPEAT_FOREVER) k
      = { nav_cmd := wp_a, jump_tracking := init_jump_tracking,
          flags_state := mission_state.MISSION_RUNNING } := by
  induction k with
  | zero => rfl
  | succ k ih =>
    simp only [run_mission]
    rw [ih]
    decide

/-- Claim C2: in the scenario mission [home, WP@A, JUMP(target=1,
count=N), WP@B] with finite N >= 0 (an int16 value), repeated
advancement follows the jump exactly N times — advancements 0..N all
land on waypoint A (the initial visit plus N repeats), the advancement
logic comparing times_run against the repeat count before following —
and advancement N+1 proceeds past the jump to waypoint B; with the
forever sentinel -1, every advancement that reaches the jump follows
it. -/
theorem c2_jump_repeat_count (n : Nat) (hn : n ≤ 32767) :
    ((∀ k, k ≤ n →
        (run_mission (jump_loop_mission (n : Int)) k).nav_cmd = wp_a)
      ∧ (run_mission (jump_loop_mission (n : Int)) (n + 1)).nav_cmd = wp_b)
    ∧ (∀ k,
        (run_mission (jump_loop_mission AP_MISSION_JUMP_REPEAT_FOREVER)
          k).nav_cmd = wp_a) := by
  refine ⟨⟨?_, ?_⟩, ?_⟩
  · intro k hk
    rw [run_mission_wp_a n k hk]
  · rw [run_mission_wp_b n]
  · intro k
    rw [run_mission_forever k]

/-- Witness for C2: with count 2 the scenario visits waypoint A on
advancements 0, 1 and 2 (three visits in all) and reaches waypoint B on
advancement 3; with the forever count the 10000th advancement still
lands on waypoint A. -/
theorem c2_jump_repeat_count_witness :
    (run_mission (jump_loop_mission ((2 : Nat) : Int)) 0).nav_cmd = wp_a
    ∧ (run_mission (jump_loop_mission ((2 : Nat) : Int)) 2).nav_cmd = wp_a
    ∧ (run_mission (jump_loop_mission ((2 : Nat) : Int)) (2 + 1)).nav_cmd = wp_b
    ∧ (run_mission (jump_loop_mission AP_MISSION_JUMP_REPEAT_FOREVER)
        10000).nav_cmd = wp_a := by
  have h := c2_jump_repeat_count 2 (by norm_num)
  exact ⟨h.1.1 0 (by norm_num), h.1.1 2 le_rfl, h.1.2, h.2 10000⟩
